import Mathlib

set_option maxRecDepth 100000

/-!
Shallow embedding of the analysis core of the VishwaCoder plant-leaf
diagnosis service (src/model_utils.py, plus the confidence rounding in
src/app.py), together with theorems settling the frozen claims about it.

Modelling conventions:
* Python floats are embedded as rationals (`ℚ`); decimal literals such as
  `0.7` are exact in `ℚ`.
* `int(x)` (truncation toward zero) is `pyInt`; `round(x, n)` (round half
  to even) is `pyRound1` / `pyRound2`.
* Python strings are Lean `String`s; `str.lower`, `str.capitalize`,
  `str.split`, `str.startswith`, the `in` substring test and `sep.join`
  are embedded as executable functions over the underlying character
  lists, so concrete instances evaluate by `decide`.
* An image path argument is embedded as the data it gives access to: for
  the heuristic estimators an `Option` of a decoded image (`none` when
  the file is missing or unreadable, matching the `os.path.exists` and
  `cv2.imread is None` branches); for `calculate_damage_percentage` the
  `image_path` argument is embedded as the `Option ℤ` severity estimate
  that `ImageProcessor.analyze_disease_severity` yields for that path.
* Exceptions caught by a `try/except` whose body is pure are modelled by
  the explicit error branches of the embedding (empty vector, index out
  of range); the pure remainder cannot raise.
-/

/-- Embedding of the Python method str.lower (ASCII case folding on each
character). -/
def lowerStr (s : String) : String :=
  ⟨s.data.map Char.toLower⟩

/-- Embedding of the Python method str.capitalize: first character
upper-cased, all remaining characters lower-cased. -/
def pyCapitalize (s : String) : String :=
  match s.data with
  | [] => ""
  | c :: cs => ⟨Char.toUpper c :: cs.map Char.toLower⟩

/-- Does the first list start with the second one? -/
def startsL : List Char → List Char → Bool
  | _, [] => true
  | [], _ :: _ => false
  | c :: cs, p :: ps => p == c && startsL cs ps

/-- Occurrence of `pat` as a contiguous sublist of `s`. -/
def containsSub : List Char → List Char → Bool
  | [], pat => startsL [] pat
  | s@(_ :: cs), pat => startsL s pat || containsSub cs pat

/-- Embedding of the Python substring test `pat in s`. -/
def strContains (s pat : String) : Bool :=
  containsSub s.data pat.data

/-- Embedding of the Python method str.startswith. -/
def strStarts (s pre : String) : Bool :=
  startsL s.data pre.data

/-- Split a character list at every occurrence of `sep`, keeping empty
pieces, as the Python method str.split(sep) does. -/
def splitChar (sep : Char) : List Char → List (List Char)
  | [] => [[]]
  | c :: cs =>
    match splitChar sep cs with
    | [] => [[c]]
    | g :: gs => if c == sep then [] :: g :: gs else (c :: g) :: gs

/-- Embedding of the Python method str.split with a one-character
separator. -/
def pySplit (sep : Char) (s : String) : List String :=
  (splitChar sep s.data).map fun l => (⟨l⟩ : String)

/-- Embedding of the Python method sep.join. -/
def joinWith (sep : String) : List String → String
  | [] => ""
  | [x] => x
  | x :: xs => x ++ sep ++ joinWith sep xs

/-- Embedding of the Python conversion int(x) on a real argument:
truncation toward zero. -/
def pyInt (q : ℚ) : ℤ :=
  if 0 ≤ q then ⌊q⌋ else ⌈q⌉

/-- Round to the nearest integer, ties to the even neighbour, as the
Python builtin round does on exact values. -/
def roundHalfEven (q : ℚ) : ℤ :=
  if q - ⌊q⌋ < 1/2 then ⌊q⌋
  else if 1/2 < q - ⌊q⌋ then ⌊q⌋ + 1
  else if 2 ∣ ⌊q⌋ then ⌊q⌋ else ⌊q⌋ + 1

/-- Embedding of the Python call round(x, 1). -/
def pyRound1 (q : ℚ) : ℚ :=
  (roundHalfEven (q * 10) : ℚ) / 10

/-- Embedding of the Python call round(x, 2), used by app.py for the
reported confidence percentage. -/
def pyRound2 (q : ℚ) : ℚ :=
  (roundHalfEven (q * 100) : ℚ) / 100

/-- Helper for `argmaxIdx`: scan the remaining entries keeping the value
and index of the current maximum; a later entry replaces it only when
strictly greater, so the first maximal index wins, as with np.argmax. -/
def argmaxGo : List ℚ → ℚ → ℕ → ℕ → ℕ
  | [], _, bestIdx, _ => bestIdx
  | x :: xs, best, bestIdx, cur =>
    if best < x then argmaxGo xs x cur (cur + 1) else argmaxGo xs best bestIdx (cur + 1)

/-- Embedding of np.argmax on a vector: index of the first maximal
entry, `none` on the empty vector (where np.argmax raises, which the
caller catches). -/
def argmaxIdx : List ℚ → Option ℕ
  | [] => none
  | x :: xs => some (argmaxGo xs x 0 1)

/-- Embedding of PredictionAnalyzer.calculate_damage_percentage
(src/model_utils.py lines 256-291).  `predictions` is the prediction
vector `predictions[0]`, `classes` the label list, and `image_damage`
stands for the `image_path` argument: `some s` when a path is given and
`ImageProcessor.analyze_disease_severity` returns `s` for it, `none`
when no path is given.  The `except` branch (np.argmax on an empty
vector, label lookup out of range) returns the conservative default
30. -/
def calculate_damage_percentage (predictions : List ℚ) (classes : List String)
    (image_damage : Option ℤ) : ℤ :=
  match argmaxIdx predictions with
  | none => 30
  | some idx =>
    match classes[idx]? with
    | none => 30
    | some predicted_class =>
      let confidence : ℚ := predictions.getD idx 0
      if strContains (lowerStr predicted_class) "healthy" then
        let base_damage : ℤ := max 0 (pyInt ((1 - confidence) * 20))
        match image_damage with
        | some s => min 25 (pyInt ((base_damage : ℚ) * 0.7 + (s : ℚ) * 0.3))
        | none => base_damage
      else
        let base_damage : ℤ := pyInt (confidence * 60) + 20
        match image_damage with
        | some s => min 95 (max 15 (pyInt ((base_damage : ℚ) * 0.6 + (s : ℚ) * 0.4)))
        | none => min 90 base_damage

/-- Embedding of PredictionAnalyzer.get_severity_level
(src/model_utils.py lines 293-305). -/
def get_severity_level (damage_percentage : ℤ) : String :=
  if damage_percentage < 15 then "Minimal"
  else if damage_percentage < 30 then "Mild"
  else if damage_percentage < 55 then "Moderate"
  else if damage_percentage < 75 then "Severe"
  else "Critical"

/-- Embedding of PredictionAnalyzer.get_health_status
(src/model_utils.py lines 307-310). -/
def get_health_status (predicted_class : String) : String :=
  if strContains (lowerStr predicted_class) "healthy" then "Healthy" else "Diseased"

/-- Ordinal rank of the five severity tiers, used to state that the tier
mapping is monotone in the damage percentage. -/
def tierRank (tier : String) : ℕ :=
  if tier == "Minimal" then 0
  else if tier == "Mild" then 1
  else if tier == "Moderate" then 2
  else if tier == "Severe" then 3
  else 4

/-- The corrections table of PredictionAnalyzer.format_disease_name, in
source order. -/
def corrections : List (String × String) :=
  [("Scab", "Apple Scab"),
   ("Rust", "Leaf Rust"),
   ("Blight", "Leaf Blight"),
   ("Spot", "Leaf Spot"),
   ("Mildew", "Powdery Mildew"),
   ("Sigatoka", "Sigatoka Disease"),
   ("Mosaic", "Mosaic Virus"),
   ("Curl", "Leaf Curl Virus"),
   ("Wilt", "Fungal Wilt")]

/-- Embedding of PredictionAnalyzer.format_disease_name
(src/model_utils.py lines 312-356).  The body after the healthy test is
pure, so the except branch returning "Disease Detected" is
unreachable. -/
def format_disease_name (predicted_class : String) : Option String :=
  if strContains (lowerStr predicted_class) "healthy" then none
  else
    let parts := pySplit '_' predicted_class
    let disease_parts :=
      parts.tail.filter fun part => !(lowerStr part == "disease" || lowerStr part == "virus")
    let disease_parts := if disease_parts.isEmpty then parts.tail else disease_parts
    let formatted := joinWith " " (disease_parts.map pyCapitalize)
    let formatted :=
      match corrections.find? (fun p => formatted == p.1) with
      | some p => p.2
      | none => formatted
    some (if formatted == "" then "Unknown Disease" else formatted)

/-- Formatter for disease names written from the words of the
specification, for comparison with the source embedding: split the
label on underscore, drop the first token, drop remaining tokens equal
to "disease" or "virus" case-insensitively (falling back to all tokens
after the first when nothing remains), capitalize and join with
spaces, substitute the canonical table entry on an exact match, and
return "Unknown Disease" when the final string is empty.  Absent on a
healthy label. -/
def formatDiseaseNameSpec (label : String) : Option String :=
  if strContains (lowerStr label) "healthy" then none
  else
    let tokens := (pySplit '_' label).tail
    let kept :=
      tokens.filter fun t => !(lowerStr t == "disease") && !(lowerStr t == "virus")
    let kept := if kept.isEmpty then tokens else kept
    let joined := joinWith " " (kept.map pyCapitalize)
    let canon :=
      match corrections.find? (fun p => joined == p.1) with
      | some p => p.2
      | none => joined
    some (if canon == "" then "Unknown Disease" else canon)

/-- Text of TREATMENT_RECOMMENDATIONS under the key default_healthy. -/
def default_healthy_text : String :=
  "Continue current management practices. Monitor plants regularly for early disease detection. Maintain proper nutrition, irrigation, and cultural practices. Consider preventive treatments during high-risk periods."

/-- Text of TREATMENT_RECOMMENDATIONS under the key default_diseased. -/
def default_diseased_text : String :=
  "Consult with local agricultural extension services for specific treatment protocols. Implement integrated disease management including resistant varieties, cultural practices, biological controls, and targeted chemical applications. Consider soil health and environmental factors."

/-- The TREATMENT_RECOMMENDATIONS table (src/model_utils.py lines
359-406) as an association list in dictionary insertion order, which is
the order the source iterates keys in. -/
def TREATMENT_RECOMMENDATIONS : List (String × String) :=
  [("apple_scab", "Apply preventive fungicide sprays containing Captan, Mancozeb, or Strobilurin fungicides during wet spring conditions. Remove and destroy fallen leaves. Improve air circulation through proper pruning. Consider resistant varieties for future plantings."),
   ("apple_black_rot", "Prune and destroy all infected branches and mummified fruits. Apply copper-based fungicides during dormant season. Ensure proper orchard drainage and avoid overhead irrigation. Remove cankers from trunk and major branches."),
   ("apple_cedar_rust", "Remove nearby juniper/cedar trees within 1-2 miles if possible. Apply preventive fungicide sprays (Myclobutanil, Propiconazole) from pink bud stage through petal fall. Use resistant apple varieties."),
   ("cherry_powdery_mildew", "Apply sulfur-based fungicides or systemic fungicides like Myclobutanil. Improve air circulation through proper pruning. Avoid overhead watering. Apply treatments every 7-14 days during humid conditions."),
   ("corn_gray_leaf_spot", "Use resistant hybrid varieties. Practice crop rotation with non-host crops. Apply foliar fungicides (Strobilurin group) if disease pressure is high. Manage crop residue through tillage."),
   ("corn_common_rust", "Plant resistant hybrids when available. Apply fungicides (Triazole or Strobilurin) only if infection occurs before tasseling in susceptible varieties. Monitor weather conditions favoring disease."),
   ("corn_northern_leaf_blight", "Use resistant varieties as primary control. Apply fungicides during critical growth stages (V8-R1) if conditions favor disease development. Rotate with non-host crops."),
   ("tomato_early_blight", "Apply fungicides containing Chlorothalonil, Mancozeb, or Copper compounds. Provide adequate plant spacing for air circulation. Use drip irrigation to avoid leaf wetness. Remove infected lower leaves."),
   ("tomato_late_blight", "Apply preventive fungicides (Metalaxyl + Mancozeb, Cymoxanil). Remove and destroy infected plants immediately. Avoid overhead irrigation. Ensure good drainage and air circulation."),
   ("tomato_bacterial_spot", "Use copper-based bactericides. Plant disease-free seeds and transplants. Provide adequate spacing. Avoid working with wet plants. Remove infected plant debris."),
   ("rice_blast", "Apply systemic fungicides containing Tricyclazole or Azoxystrobin. Use resistant varieties. Manage nitrogen fertilization - avoid excessive nitrogen. Ensure proper field drainage."),
   ("rice_bacterial_blight", "Use resistant varieties as primary control. Apply copper-based bactericides during early infection stages. Avoid excessive nitrogen fertilization. Manage irrigation to prevent prolonged flooding."),
   ("wheat_stripe_rust", "Apply fungicides containing Triazole compounds (Propiconazole, Tebuconazole) at first sign of infection. Use resistant varieties. Monitor weather conditions favoring rust development."),
   ("wheat_powdery_mildew", "Apply sulfur-based fungicides or systemic fungicides. Ensure adequate plant spacing. Use resistant varieties. Avoid excessive nitrogen fertilization."),
   ("banana_black_sigatoka", "Apply systemic fungicides (Propiconazole, Tebuconazole) on rotation schedule. Remove infected leaves regularly. Improve plantation drainage. Use resistant cultivars where available."),
   ("banana_panama_disease", "No chemical control available. Remove and destroy infected plants immediately. Plant resistant varieties (Cavendish alternatives). Improve soil drainage and avoid replanting in infected areas."),
   ("cotton_bacterial_blight", "Use pathogen-free seeds. Apply copper-based bactericides during humid conditions. Provide adequate plant spacing. Avoid overhead irrigation and excessive nitrogen."),
   ("default_healthy", default_healthy_text),
   ("default_diseased", default_diseased_text)]

/-- The disease_keywords table of get_treatment_recommendation, in
source order. -/
def disease_keywords : List (String × String) :=
  [("rust", "Apply fungicides containing Triazole compounds. Use resistant varieties. Monitor environmental conditions."),
   ("blight", "Apply broad-spectrum fungicides. Improve air circulation and drainage. Remove infected plant material."),
   ("spot", "Use copper-based fungicides or bactericides. Ensure good sanitation practices."),
   ("mildew", "Apply sulfur-based or systemic fungicides. Improve air circulation."),
   ("virus", "Remove infected plants immediately. Control insect vectors. Use virus-free planting material."),
   ("wilt", "Improve soil drainage. Use resistant varieties. Apply appropriate fungicides.")]

/-- The crop name computed by get_treatment_recommendation: the piece
before the first underscore when the label has one, empty otherwise. -/
def cropName (predicted_class : String) : String :=
  if strContains predicted_class "_" then (pySplit '_' predicted_class).headD "" else ""

/-- The crop_matches list of get_treatment_recommendation: table keys,
in table order, starting with the crop name and different from the
label itself. -/
def cropMatches (predicted_class : String) : List (String × String) :=
  TREATMENT_RECOMMENDATIONS.filter fun p =>
    strStarts p.1 (cropName predicted_class) && !(p.1 == predicted_class)

/-- The first disease keyword, in table order, occurring case
insensitively in the label. -/
def keywordFind (predicted_class : String) : Option (String × String) :=
  disease_keywords.find? fun p => strContains (lowerStr predicted_class) p.1

/-- Note appended to a crop-prefix treatment by
get_treatment_recommendation. -/
def cropNote (predicted_class : String) : String :=
  "\n\nNote: Treatment adapted for similar " ++ cropName predicted_class ++ " disease. Consult agricultural extension for specific strain identification."

/-- Note appended to a keyword-level treatment by
get_treatment_recommendation. -/
def generalNote : String :=
  "\n\nGeneral recommendation based on disease type. Consult local experts for specific treatment protocols."

/-- Embedding of get_treatment_recommendation (src/model_utils.py lines
408-448).  The body is pure, so the except branch returning the
default diseased text is unreachable. -/
def get_treatment_recommendation (predicted_class : String) : String :=
  match TREATMENT_RECOMMENDATIONS.find? (fun p => p.1 == predicted_class) with
  | some p => p.2
  | none =>
    if strContains (lowerStr predicted_class) "healthy" then default_healthy_text
    else
      match (cropMatches predicted_class).head? with
      | some p => p.2 ++ cropNote predicted_class
      | none =>
        match keywordFind predicted_class with
        | some p => p.2 ++ generalNote
        | none => default_diseased_text

/-- A pixel of the image after the BGR to HSV conversion the source
performs with cv2.cvtColor, on the 8-bit OpenCV scale (hue in 0..180,
saturation and value in 0..255). -/
structure HsvPixel where
  h : ℕ
  s : ℕ
  v : ℕ
deriving DecidableEq

/-- A decoded image, row major, already converted to HSV. -/
abbrev HsvImage := List (List HsvPixel)

/-- A binary mask, row major. -/
abbrev Mask := List (List Bool)

/-- Embedding of cv2.inRange at one pixel: all three channels inside
the inclusive bounds. -/
def inRange (lo hi : HsvPixel) (p : HsvPixel) : Bool :=
  decide (lo.h ≤ p.h) && decide (p.h ≤ hi.h) &&
  decide (lo.s ≤ p.s) && decide (p.s ≤ hi.s) &&
  decide (lo.v ≤ p.v) && decide (p.v ≤ hi.v)

/-- Read a mask cell, returning `d` outside the mask bounds.  OpenCV
pads erosion with the maximal value and dilation with the minimal one,
so `d` is true for erosion and false for dilation. -/
def cellD (m : Mask) (d : Bool) (i j : ℤ) : Bool :=
  if 0 ≤ i ∧ 0 ≤ j then ((m.getD i.toNat []).getD j.toNat d) else d

/-- Offsets of the 3 by 3 structuring element np.ones((3, 3)). -/
def window : List (ℤ × ℤ) :=
  [(-1, -1), (-1, 0), (-1, 1), (0, -1), (0, 0), (0, 1), (1, -1), (1, 0), (1, 1)]

/-- Morphological erosion with the 3 by 3 kernel. -/
def erode (m : Mask) : Mask :=
  m.mapIdx fun i row =>
    row.mapIdx fun j _ => window.all fun o => cellD m true ((i : ℤ) + o.1) ((j : ℤ) + o.2)

/-- Morphological dilation with the 3 by 3 kernel. -/
def dilate (m : Mask) : Mask :=
  m.mapIdx fun i row =>
    row.mapIdx fun j _ => window.any fun o => cellD m false ((i : ℤ) + o.1) ((j : ℤ) + o.2)

/-- Embedding of cv2.morphologyEx with cv2.MORPH_OPEN: erosion then
dilation. -/
def morphOpen (m : Mask) : Mask :=
  dilate (erode m)

/-- Embedding of cv2.morphologyEx with cv2.MORPH_CLOSE: dilation then
erosion. -/
def morphClose (m : Mask) : Mask :=
  erode (dilate m)

/-- Embedding of cv2.countNonZero. -/
def countNonZero (m : Mask) : ℕ :=
  (m.map fun row => (row.filter id).length).sum

/-- Pointwise disjunction of two masks, as cv2.bitwise_or. -/
def maskOr (a b : Mask) : Mask :=
  List.zipWith (List.zipWith fun x y => x || y) a b

/-- Embedding of ImageProcessor.calculate_leaf_area_index
(src/model_utils.py lines 137-187).  The argument is `none` when the
image file is missing or cv2.imread cannot read it; otherwise it is the
decoded image after HSV conversion.  The total pixel count is
mask.shape[0] times mask.shape[1]. -/
def calculate_leaf_area_index (img : Option HsvImage) : ℚ :=
  match img with
  | none => 2.0
  | some image =>
    let mask : Mask := image.map (List.map (inRange ⟨35, 40, 40⟩ ⟨80, 255, 255⟩))
    let mask := morphClose (morphOpen mask)
    let green_pixels := countNonZero mask
    let total_pixels := mask.length * (mask.headD []).length
    if total_pixels = 0 then 2.0
    else
      let green_frac : ℚ := (green_pixels : ℚ) / (total_pixels : ℚ)
      let lai := pyRound1 (green_frac * 5.0)
      max 0.1 (min lai 8.0)

/-- Embedding of ImageProcessor.analyze_disease_severity
(src/model_utils.py lines 189-251), with the same conventions as
`calculate_leaf_area_index`. -/
def analyze_disease_severity (img : Option HsvImage) : ℤ :=
  match img with
  | none => 25
  | some image =>
    let brown_mask : Mask := image.map (List.map (inRange ⟨8, 50, 20⟩ ⟨20, 255, 200⟩))
    let yellow_mask : Mask := image.map (List.map (inRange ⟨20, 100, 100⟩ ⟨30, 255, 255⟩))
    let dark_mask : Mask := image.map (List.map (inRange ⟨0, 0, 0⟩ ⟨180, 255, 50⟩))
    let combined_mask : Mask := brown_mask.map (List.map fun _ => false)
    let combined_mask := maskOr (maskOr (maskOr combined_mask brown_mask) yellow_mask) dark_mask
    let combined_mask := morphOpen combined_mask
    let diseased_pixels := countNonZero combined_mask
    let total_pixels := combined_mask.length * (combined_mask.headD []).length
    if total_pixels = 0 then 25
    else
      let diseased_frac : ℚ := (diseased_pixels : ℚ) / (total_pixels : ℚ)
      let severity_percentage := pyInt (diseased_frac * 100)
      max 5 (min severity_percentage 90)

/-- The fields of one MODEL_CONFIG entry that ModelManager reads: name,
model_path, description, classes and image_size (the input_channels
field only feeds a log line). -/
structure ModelDescr where
  name : String
  model_path : String
  description : String
  classes : List String
  image_size : ℕ × ℕ
deriving DecidableEq

/-- The filesystem and TensorFlow environment ModelManager.load_model
runs against: pathExists is os.path.exists, and loadFile is
tf.keras.models.load_model at a path, `none` when that call raises and
`some h` when it returns the opaque handle `h` (handles are numbered by
naturals). -/
structure LoadEnv where
  pathExists : String → Bool
  loadFile : String → Option ℕ

/-- State of a ModelManager: the static model_config catalog (a Python
dict in insertion order) and the models dict as a partial map from
model id to loaded handle. -/
structure RegistryState where
  model_config : List (String × ModelDescr)
  models : String → Option ℕ

/-- Lookup of a model id in the catalog, as `self.model_config[...]`
guarded by the membership test. -/
def configFind (cfg : List (String × ModelDescr)) (model_id : String) : Option ModelDescr :=
  (cfg.find? fun p => p.1 == model_id).map Prod.snd

/-- Embedding of ModelManager.load_model (src/model_utils.py lines
32-66): unknown id, missing artifact file and a raising
tf.keras.models.load_model all return False and leave the state
unchanged; a successful load installs the handle under the id and
returns True.  The input-shape comparison only logs a warning and has
no state effect. -/
def load_model (env : LoadEnv) (st : RegistryState) (model_id : String) :
    RegistryState × Bool :=
  match configFind st.model_config model_id with
  | none => (st, false)
  | some config =>
    if env.pathExists config.model_path = false then (st, false)
    else
      match env.loadFile config.model_path with
      | none => (st, false)
      | some handle =>
        ({ st with models := fun k => if k = model_id then some handle else st.models k }, true)

/-- Iterated load over a list of catalog entries, calling load_model on
each id in turn and keeping the state. -/
def loadList (env : LoadEnv) (st : RegistryState) (l : List (String × ModelDescr)) :
    RegistryState :=
  l.foldl (fun acc p => (load_model env acc p.1).1) st

/-- Embedding of ModelManager.load_all_models (src/model_utils.py lines
20-30): attempt every catalog entry independently; the success flags
only feed log lines. -/
def load_all_models (env : LoadEnv) (st : RegistryState) : RegistryState :=
  loadList env st st.model_config

/-- Embedding of ModelManager.__init__: an empty models dict followed by
load_all_models. -/
def ModelManager_init (env : LoadEnv) (cfg : List (String × ModelDescr)) : RegistryState :=
  load_all_models env { model_config := cfg, models := fun _ => none }

/-- Embedding of ModelManager.get_model: self.models.get(model_id). -/
def get_model (st : RegistryState) (model_id : String) : Option ℕ :=
  st.models model_id

/-- Embedding of ModelManager.is_model_available: membership in the
models dict. -/
def is_model_available (st : RegistryState) (model_id : String) : Bool :=
  (st.models model_id).isSome

/-- One row of the ModelManager.get_available_models status list. -/
structure ModelInfo where
  id : String
  name : String
  description : String
  available : Bool
  classes_count : ℕ
  image_size : ℕ × ℕ
deriving DecidableEq

/-- Embedding of ModelManager.get_available_models (src/model_utils.py
lines 76-89): one row per catalog entry, loaded or not. -/
def get_available_models (st : RegistryState) : List ModelInfo :=
  st.model_config.map fun p =>
    { id := p.1
      name := p.2.name
      description := p.2.description
      available := (st.models p.1).isSome
      classes_count := p.2.classes.length
      image_size := p.2.image_size }

/-- The state after the `del self.models[model_id]` statement of
ModelManager.reload_model: the entry is removed and nothing else
changes.  This state is visible to concurrent readers while the
subsequent load_model call performs its filesystem work. -/
def evict (st : RegistryState) (model_id : String) : RegistryState :=
  { st with models := fun k => if k = model_id then none else st.models k }

/-- Embedding of ModelManager.reload_model (src/model_utils.py lines
91-95): delete the entry when present, then call load_model on the
evicted state. -/
def reload_model (env : LoadEnv) (st : RegistryState) (model_id : String) :
    RegistryState × Bool :=
  load_model env (if (st.models model_id).isSome then evict st model_id else st) model_id

/-- A one-model catalog used to exhibit the reload behaviour. -/
def oneModelCfg : List (String × ModelDescr) :=
  [("m", ⟨"Model", "p", "", ["x"], (224, 224)⟩)]

/-- An environment in which every load succeeds and produces handle 1. -/
def okEnv : LoadEnv :=
  ⟨fun _ => true, fun _ => some 1⟩

/-- An environment in which every artifact file is missing. -/
def missingEnv : LoadEnv :=
  ⟨fun _ => false, fun _ => none⟩

/-- A registry over the one-model catalog whose model m is loaded with
handle 0. -/
def loadedSt : RegistryState :=
  ⟨oneModelCfg, fun k => if k = "m" then some 0 else none⟩

theorem argmaxGo_lt {L : ℕ} :
    ∀ (xs : List ℚ) (best : ℚ) (bestIdx cur : ℕ),
      bestIdx < L → cur + xs.length ≤ L → argmaxGo xs best bestIdx cur < L := by
  intro xs
  induction xs with
  | nil => intro best bestIdx cur h1 _; simpa [argmaxGo] using h1
  | cons x xs ih =>
    intro best bestIdx cur h1 h2
    simp only [List.length_cons] at h2
    simp only [argmaxGo]
    split
    · exact ih x cur (cur + 1) (by omega) (by omega)
    · exact ih best bestIdx (cur + 1) h1 (by omega)

theorem argmaxIdx_lt {l : List ℚ} {i : ℕ} (h : argmaxIdx l = some i) : i < l.length := by
  cases l with
  | nil => simp [argmaxIdx] at h
  | cons x xs =>
    simp only [argmaxIdx, Option.some.injEq] at h
    subst h
    exact argmaxGo_lt xs x 0 1 (by simp only [List.length_cons]; omega)
      (by simp only [List.length_cons]; omega)

theorem getD_mem {l : List ℚ} {i : ℕ} (h : i < l.length) : l.getD i 0 ∈ l := by
  rw [List.getD_eq_getElem l 0 h]
  exact List.getElem_mem h

theorem pyInt_eq_floor {q : ℚ} (h : 0 ≤ q) : pyInt q = ⌊q⌋ := by
  simp [pyInt, h]

theorem pyInt_le_of_le {q : ℚ} {n : ℤ} (h0 : 0 ≤ q) (h : q ≤ (n : ℚ)) : pyInt q ≤ n := by
  rw [pyInt_eq_floor h0]
  calc ⌊q⌋ ≤ ⌊(n : ℚ)⌋ := Int.floor_le_floor h
  _ = n := Int.floor_intCast n

theorem pyInt_nonneg {q : ℚ} (h : 0 ≤ q) : 0 ≤ pyInt q := by
  rw [pyInt_eq_floor h]
  exact (Int.floor_nonneg).mpr h

/-- C1: for every prediction vector with entries in the unit interval
whose argmax label contains the substring "healthy" case-insensitively,
calculate_damage_percentage returns at most 25 with or without a
heuristic severity estimate; and for every such vector whose argmax
label does not contain "healthy", with a heuristic severity estimate
supplied the returned damage lies within 15 and 95. -/
theorem claim_C1_damage_bounds (predictions : List ℚ) (classes : List String)
    (idx : ℕ) (cls : String)
    (hb : ∀ x ∈ predictions, 0 ≤ x ∧ x ≤ 1)
    (ha : argmaxIdx predictions = some idx)
    (hc : classes[idx]? = some cls) :
    (strContains (lowerStr cls) "healthy" = true →
      ∀ d : Option ℤ, calculate_damage_percentage predictions classes d ≤ 25) ∧
    (strContains (lowerStr cls) "healthy" = false →
      ∀ s : ℤ, 15 ≤ calculate_damage_percentage predictions classes (some s) ∧
        calculate_damage_percentage predictions classes (some s) ≤ 95) := by
  have hconf : 0 ≤ predictions.getD idx 0 ∧ predictions.getD idx 0 ≤ 1 :=
    hb _ (getD_mem (argmaxIdx_lt ha))
  constructor
  · intro hh d
    simp only [calculate_damage_percentage, ha, hc, hh, if_true]
    cases d with
    | none =>
      simp only
      have h20 : (1 - predictions.getD idx 0) * 20 ≤ ((20 : ℤ) : ℚ) := by
        push_cast
        nlinarith [hconf.1]
      have h0 : (0 : ℚ) ≤ (1 - predictions.getD idx 0) * 20 := by
        nlinarith [hconf.2]
      have := pyInt_le_of_le h0 h20
      omega
    | some s =>
      simp only
      exact min_le_left _ _
  · intro hh s
    simp only [calculate_damage_percentage, ha, hc, hh]
    refine ⟨le_min (by norm_num) (le_max_left _ _), min_le_left _ _⟩

/-- Closed instance of claim_C1_damage_bounds at a concrete diseased
argmax. -/
theorem claim_C1_damage_bounds_witness :
    15 ≤ calculate_damage_percentage [1/2, 1] ["apple_healthy", "apple_scab"] (some 40) ∧
    calculate_damage_percentage [1/2, 1] ["apple_healthy", "apple_scab"] (some 40) ≤ 95 :=
  (claim_C1_damage_bounds [1/2, 1] ["apple_healthy", "apple_scab"] 1 "apple_scab"
    (by intro x hx
        simp only [List.mem_cons, List.not_mem_nil, or_false] at hx
        rcases hx with h | h <;> norm_num [h])
    (by norm_num [argmaxIdx, argmaxGo])
    (by rfl)).2 (by decide) 40

/-- C2: get_severity_level maps every integer damage percentage to
exactly one of the five tiers by first-match-wins thresholds, the
mapping is monotone in the damage percentage, and it is boundary-exact
at 14/15, 29/30, 54/55 and 74/75. -/
theorem claim_C2_severity_tiers :
    (∀ d : ℤ,
      (d < 15 → get_severity_level d = "Minimal") ∧
      (15 ≤ d → d < 30 → get_severity_level d = "Mild") ∧
      (30 ≤ d → d < 55 → get_severity_level d = "Moderate") ∧
      (55 ≤ d → d < 75 → get_severity_level d = "Severe") ∧
      (75 ≤ d → get_severity_level d = "Critical")) ∧
    (∀ d₁ d₂ : ℤ, d₁ ≤ d₂ →
      tierRank (get_severity_level d₁) ≤ tierRank (get_severity_level d₂)) ∧
    (get_severity_level 14 = "Minimal" ∧ get_severity_level 15 = "Mild" ∧
     get_severity_level 29 = "Mild" ∧ get_severity_level 30 = "Moderate" ∧
     get_severity_level 54 = "Moderate" ∧ get_severity_level 55 = "Severe" ∧
     get_severity_level 74 = "Severe" ∧ get_severity_level 75 = "Critical") := by
  refine ⟨?_, ?_, ?_⟩
  · intro d
    refine ⟨?_, ?_, ?_, ?_, ?_⟩ <;>
      · intros
        simp only [get_severity_level]
        split_ifs <;> first | rfl | omega
  · intro d₁ d₂ h
    simp only [get_severity_level]
    split_ifs <;> first | decide | omega
  · refine ⟨?_, ?_, ?_, ?_, ?_, ?_, ?_, ?_⟩ <;> decide

/-- Closed instance of claim_C2_severity_tiers at damage 20 and at the
ordered pair 10, 80. -/
theorem claim_C2_severity_tiers_witness :
    get_severity_level 20 = "Mild" ∧
    tierRank (get_severity_level 10) ≤ tierRank (get_severity_level 80) :=
  ⟨(claim_C2_severity_tiers.1 20).2.1 (by decide) (by decide),
   claim_C2_severity_tiers.2.1 10 80 (by decide)⟩

/-- C3: the pipeline on the vector 0.1, 0.05, 0.8, 0.05 over the four
apple classes with heuristic severity 40 selects index 2, hence the
label apple_cedar_rust, reports confidence 80, computes base damage 68,
blends it to floor of 0.6 times 68 plus 0.4 times 40, that is 56, inside
the 15 to 95 clamp, and yields severity tier Severe and health status
Diseased. -/
theorem claim_C3_end_to_end :
    argmaxIdx [0.1, 0.05, 0.8, 0.05] = some 2 ∧
    (["apple_scab", "apple_black_rot", "apple_cedar_rust", "apple_healthy"] :
      List String)[2]? = some "apple_cedar_rust" ∧
    pyRound2 (([0.1, 0.05, 0.8, 0.05] : List ℚ).getD 2 0 * 100) = 80 ∧
    pyInt (([0.1, 0.05, 0.8, 0.05] : List ℚ).getD 2 0 * 60) + 20 = 68 ∧
    pyInt ((68 : ℚ) * 0.6 + (40 : ℚ) * 0.4) = 56 ∧
    calculate_damage_percentage [0.1, 0.05, 0.8, 0.05]
      ["apple_scab", "apple_black_rot", "apple_cedar_rust", "apple_healthy"]
      (some 40) = 56 ∧
    get_severity_level 56 = "Severe" ∧
    get_health_status "apple_cedar_rust" = "Diseased" := by
  have h1 : argmaxIdx [0.1, 0.05, 0.8, 0.05] = some 2 := by
    norm_num [argmaxIdx, argmaxGo]
  have h2 : ([0.1, 0.05, 0.8, 0.05] : List ℚ).getD 2 0 = 0.8 := by rfl
  have h3 : (["apple_scab", "apple_black_rot", "apple_cedar_rust", "apple_healthy"] :
      List String)[2]? = some "apple_cedar_rust" := by rfl
  have h4 : strContains (lowerStr "apple_cedar_rust") "healthy" = false := by decide
  have hbase : pyInt ((0.8 : ℚ) * 60) + 20 = 68 := by norm_num [pyInt]
  have hblend : pyInt ((68 : ℚ) * 0.6 + (40 : ℚ) * 0.4) = 56 := by norm_num [pyInt]
  refine ⟨h1, h3, ?_, ?_, hblend, ?_, by decide, by decide⟩
  · rw [h2]
    norm_num [pyRound2, roundHalfEven]
  · rw [h2, hbase]
  · simp only [calculate_damage_percentage, h1, h2, h3, h4, Bool.false_eq_true, if_false]
    rw [hbase]
    push_cast
    rw [hblend]
    decide

/-- C4: format_disease_name is absent exactly on labels containing
"healthy" case-insensitively; on every other label it computes the
value described by the specification (split on underscores, drop the
crop token, drop tokens equal to "disease" or "virus" with a fallback,
capitalize and join, substitute a canonical table entry on exact match,
and use "Unknown Disease" for an empty result); in particular
apple_scab formats to Apple Scab. -/
theorem claim_C4_format_disease_name :
    (∀ c : String,
      (format_disease_name c = none ↔ strContains (lowerStr c) "healthy" = true) ∧
      format_disease_name c = formatDiseaseNameSpec c) ∧
    format_disease_name "apple_scab" = some "Apple Scab" := by
  refine ⟨fun c => ⟨?_, ?_⟩, by decide⟩
  · by_cases h : strContains (lowerStr c) "healthy" = true
    · simp [format_disease_name, h]
    · have h' : strContains (lowerStr c) "healthy" = false := by
        simpa using h
      simp [format_disease_name, h']
  · simp only [format_disease_name, formatDiseaseNameSpec, Bool.not_or]

/-- C5: get_treatment_recommendation resolves by the ordered
first-match-wins chain of the specification: exact table key first,
then the healthy maintenance text, then the first table key sharing the
crop prefix with the adaptation note appended, then the first disease
keyword hit with the general note appended, and the default diseased
text when nothing matches. -/
theorem claim_C5_treatment_chain (c : String) :
    (∀ e, TREATMENT_RECOMMENDATIONS.find? (fun p => p.1 == c) = some e →
      get_treatment_recommendation c = e.2) ∧
    (TREATMENT_RECOMMENDATIONS.find? (fun p => p.1 == c) = none →
      strContains (lowerStr c) "healthy" = true →
      get_treatment_recommendation c = default_healthy_text) ∧
    (TREATMENT_RECOMMENDATIONS.find? (fun p => p.1 == c) = none →
      strContains (lowerStr c) "healthy" = false →
      ∀ e rest, cropMatches c = e :: rest →
      get_treatment_recommendation c = e.2 ++ cropNote c) ∧
    (TREATMENT_RECOMMENDATIONS.find? (fun p => p.1 == c) = none →
      strContains (lowerStr c) "healthy" = false →
      cropMatches c = [] →
      ∀ e, keywordFind c = some e →
      get_treatment_recommendation c = e.2 ++ generalNote) ∧
    (TREATMENT_RECOMMENDATIONS.find? (fun p => p.1 == c) = none →
      strContains (lowerStr c) "healthy" = false →
      cropMatches c = [] →
      keywordFind c = none →
      get_treatment_recommendation c = default_diseased_text) := by
  refine ⟨?_, ?_, ?_, ?_, ?_⟩
  · intro e he
    simp [get_treatment_recommendation, he]
  · intro hn hh
    simp [get_treatment_recommendation, hn, hh]
  · intro hn hh e rest hcrop
    simp [get_treatment_recommendation, hn, hh, hcrop]
  · intro hn hh hcrop e hkw
    simp [get_treatment_recommendation, hn, hh, hcrop, hkw]
  · intro hn hh hcrop hkw
    simp [get_treatment_recommendation, hn, hh, hcrop, hkw]

/-- Closed instance of claim_C5_treatment_chain: the label grape_rot
matches no table key, is not healthy, has no crop-prefix sibling and
contains no disease keyword, so it resolves to the default diseased
text. -/
theorem claim_C5_treatment_chain_witness :
    get_treatment_recommendation "grape_rot" = default_diseased_text :=
  (claim_C5_treatment_chain "grape_rot").2.2.2.2 (by decide) (by decide)
    (by decide) (by decide)

theorem append_length_pos (a b : String) (hb : 0 < b.length) : 0 < (a ++ b).length := by
  rw [String.length_append]
  omega

theorem treatment_values_nonempty :
    ∀ p ∈ TREATMENT_RECOMMENDATIONS, 0 < p.2.length := by
  decide

/-- C6: get_treatment_recommendation is a total function of its label
argument (the embedding has no failure branch to model because the body
is pure) and its result is a non-empty string on every input. -/
theorem claim_C6_treatment_total :
    ∀ c : String, 0 < (get_treatment_recommendation c).length := by
  intro c
  unfold get_treatment_recommendation
  split
  next p hp =>
    exact treatment_values_nonempty p (List.mem_of_find?_eq_some hp)
  next =>
    split_ifs with hh
    · decide
    · split
      next p hp =>
        refine append_length_pos _ _ ?_
        simp only [cropNote]
        exact append_length_pos _ _ (by decide)
      next =>
        split
        next p hp =>
          exact append_length_pos _ _ (by decide)
        next =>
          decide

theorem lai_black_eval : calculate_leaf_area_index (some [[⟨0, 0, 0⟩]]) = 0.1 := by
  have hmask :
      morphClose (morphOpen (([[(⟨0, 0, 0⟩ : HsvPixel)]]).map
        (List.map (inRange ⟨35, 40, 40⟩ ⟨80, 255, 255⟩)))) = [[false]] := by
    decide
  simp only [calculate_leaf_area_index, hmask]
  norm_num [countNonZero, pyRound1, roundHalfEven]

theorem severity_black_eval : analyze_disease_severity (some [[⟨0, 0, 0⟩]]) = 90 := by
  have hm :
      morphOpen (maskOr (maskOr (maskOr [[false]]
          [[inRange ⟨8, 50, 20⟩ ⟨20, 255, 200⟩ ⟨0, 0, 0⟩]])
          [[inRange ⟨20, 100, 100⟩ ⟨30, 255, 255⟩ ⟨0, 0, 0⟩]])
          [[inRange ⟨0, 0, 0⟩ ⟨180, 255, 50⟩ ⟨0, 0, 0⟩]]) = [[true]] := by
    decide
  simp only [analyze_disease_severity, List.map_cons, List.map_nil, hm]
  norm_num [countNonZero, pyInt]

/-- C7 counterexample to the black-image part of the claim: on a one by
one black image neither estimator returns its documented default; the
leaf area index is clamped to 0.1 rather than 2.0, and the severity
estimate is clamped to 90 rather than 25 (the single black pixel falls
in the dark-lesion mask and survives the morphological opening because
OpenCV pads erosion at the border with the maximal value). -/
theorem claim_C7_black_image_counterexample :
    calculate_leaf_area_index (some [[⟨0, 0, 0⟩]]) = 0.1 ∧
    analyze_disease_severity (some [[⟨0, 0, 0⟩]]) = 90 ∧
    ¬ ((0.1 : ℚ) = 2.0) ∧ ¬ ((90 : ℤ) = 25) :=
  ⟨lai_black_eval, severity_black_eval, by norm_num, by decide⟩

/-- C7 as amended: the estimators never propagate a failure; for every
input the leaf area index lies in 0.1 to 8.0 and the severity estimate
in 5 to 90; a missing or unreadable image yields the documented
defaults 2.0 and 25; and on a one by one black image no division by
zero occurs but the results are the clamp bounds 0.1 and 90, not the
defaults. -/
theorem claim_C7_estimator_ranges :
    (∀ img : Option HsvImage,
      0.1 ≤ calculate_leaf_area_index img ∧ calculate_leaf_area_index img ≤ 8.0 ∧
      5 ≤ analyze_disease_severity img ∧ analyze_disease_severity img ≤ 90) ∧
    calculate_leaf_area_index none = 2.0 ∧
    analyze_disease_severity none = 25 ∧
    calculate_leaf_area_index (some [[⟨0, 0, 0⟩]]) = 0.1 ∧
    analyze_disease_severity (some [[⟨0, 0, 0⟩]]) = 90 := by
  refine ⟨?_, by norm_num [calculate_leaf_area_index],
    by norm_num [analyze_disease_severity], lai_black_eval, severity_black_eval⟩
  intro img
  cases img with
  | none =>
    refine ⟨?_, ?_, ?_, ?_⟩ <;> norm_num [calculate_leaf_area_index, analyze_disease_severity]
  | some image =>
    refine ⟨?_, ?_, ?_, ?_⟩
    · simp only [calculate_leaf_area_index]
      split_ifs
      · norm_num
      · exact le_max_left _ _
    · simp only [calculate_leaf_area_index]
      split_ifs
      · norm_num
      · exact max_le (by norm_num) (min_le_right _ _)
    · simp only [analyze_disease_severity]
      split_ifs
      · norm_num
      · exact le_max_left _ _
    · simp only [analyze_disease_severity]
      split_ifs
      · norm_num
      · exact max_le (by norm_num) (min_le_right _ _)

theorem load_model_config (env : LoadEnv) (st : RegistryState) (id : String) :
    ((load_model env st id).1).model_config = st.model_config := by
  unfold load_model
  split
  · rfl
  · split_ifs
    · rfl
    · split
      · rfl
      · rfl

theorem load_model_models_other (env : LoadEnv) (st : RegistryState) (id id' : String)
    (h : id' ≠ id) :
    ((load_model env st id).1).models id' = st.models id' := by
  unfold load_model
  split
  · rfl
  · split_ifs
    · rfl
    · split
      · rfl
      · simp [h]

theorem load_model_models_self (env : LoadEnv) (st : RegistryState) (id : String)
    (c : ModelDescr) (hc : configFind st.model_config id = some c) :
    ((load_model env st id).1).models id =
      if env.pathExists c.model_path = true ∧ (env.loadFile c.model_path).isSome = true
      then env.loadFile c.model_path else st.models id := by
  unfold load_model
  rw [hc]
  cases hp : env.pathExists c.model_path with
  | false => simp [hp]
  | true =>
    cases hl : env.loadFile c.model_path with
    | none => simp [hp, hl]
    | some handle => simp [hp, hl]

theorem loadList_config (env : LoadEnv) :
    ∀ (l : List (String × ModelDescr)) (st : RegistryState),
      (loadList env st l).model_config = st.model_config := by
  intro l
  induction l with
  | nil => intro st; rfl
  | cons p l ih =>
    intro st
    show (loadList env ((load_model env st p.1).1) l).model_config = st.model_config
    rw [ih, load_model_config]

theorem loadList_models_of_not_mem (env : LoadEnv) :
    ∀ (l : List (String × ModelDescr)) (st : RegistryState) (id : String),
      id ∉ l.map Prod.fst →
      (loadList env st l).models id = st.models id := by
  intro l
  induction l with
  | nil => intro st id _; rfl
  | cons p l ih =>
    intro st id hid
    simp only [List.map_cons, List.mem_cons, not_or] at hid
    show (loadList env ((load_model env st p.1).1) l).models id = st.models id
    rw [ih _ id hid.2, load_model_models_other env st p.1 id hid.1]

theorem loadList_models_of_mem (env : LoadEnv) (cfg : List (String × ModelDescr)) :
    ∀ (l : List (String × ModelDescr)) (st : RegistryState),
      st.model_config = cfg →
      (l.map Prod.fst).Nodup →
      (∀ p ∈ l, configFind cfg p.1 = some p.2) →
      ∀ id c, (id, c) ∈ l →
        (loadList env st l).models id =
          if env.pathExists c.model_path = true ∧ (env.loadFile c.model_path).isSome = true
          then env.loadFile c.model_path else st.models id := by
  intro l
  induction l with
  | nil =>
    intro st _ _ _ id c hmem
    simp at hmem
  | cons p l ih =>
    intro st hst hnd hfind id c hmem
    rw [List.map_cons] at hnd
    have hndc := List.nodup_cons.mp hnd
    rcases List.mem_cons.mp hmem with heq | htail
    · subst heq
      show (loadList env ((load_model env st id).1) l).models id = _
      rw [loadList_models_of_not_mem env l _ id hndc.1]
      exact load_model_models_self env st id c
        (by rw [hst]; exact hfind (id, c) (List.mem_cons_self (id, c) l))
    · have hne : id ≠ p.1 := by
        intro h
        exact hndc.1 (h ▸ (List.mem_map_of_mem Prod.fst htail))
      show (loadList env ((load_model env st p.1).1) l).models id = _
      rw [ih ((load_model env st p.1).1) (by rw [load_model_config, hst])
          hndc.2 (fun q hq => hfind q (List.mem_cons_of_mem p hq)) id c htail,
        load_model_models_other env st p.1 id hne]

theorem configFind_self :
    ∀ (cfg : List (String × ModelDescr)), (cfg.map Prod.fst).Nodup →
      ∀ id c, (id, c) ∈ cfg → configFind cfg id = some c := by
  intro cfg
  induction cfg with
  | nil => intro _ id c hmem; simp at hmem
  | cons q rest ih =>
    intro hnd id c hmem
    rw [List.map_cons] at hnd
    have hndc := List.nodup_cons.mp hnd
    rcases List.mem_cons.mp hmem with heq | htail
    · subst heq
      simp [configFind]
    · have hne : q.1 ≠ id := by
        intro h
        exact hndc.1 (by rw [h]; exact List.mem_map_of_mem Prod.fst htail)
      have : configFind rest id = some c := ih hndc.2 id c htail
      simpa [configFind, hne] using this

/-- C8: model-load failures are isolated per model.  Starting from the
empty models dict, load_all_models attempts every catalog entry; for a
catalog with distinct ids each entry ends up available exactly when its
own artifact file exists and loads, independently of every other entry,
and get_available_models still lists every catalog entry with its
availability flag. -/
theorem claim_C8_load_isolation (env : LoadEnv) (cfg : List (String × ModelDescr))
    (hnd : (cfg.map Prod.fst).Nodup) :
    (∀ id c, (id, c) ∈ cfg →
      (is_model_available (ModelManager_init env cfg) id = true ↔
        env.pathExists c.model_path = true ∧ (env.loadFile c.model_path).isSome = true)) ∧
    get_available_models (ModelManager_init env cfg) =
      cfg.map (fun p =>
        { id := p.1
          name := p.2.name
          description := p.2.description
          available := is_model_available (ModelManager_init env cfg) p.1
          classes_count := p.2.classes.length
          image_size := p.2.image_size }) := by
  constructor
  · intro id c hmem
    have hmdl :
        (ModelManager_init env cfg).models id =
          if env.pathExists c.model_path = true ∧ (env.loadFile c.model_path).isSome = true
          then env.loadFile c.model_path else none :=
      loadList_models_of_mem env cfg cfg { model_config := cfg, models := fun _ => none }
        rfl hnd (fun p hp => configFind_self cfg hnd p.1 p.2 hp) id c hmem
    rw [is_model_available, hmdl]
    split_ifs with hcond
    · simp [hcond.1, hcond.2]
    · simp only [Option.isSome_none, Bool.false_eq_true, false_iff]
      exact hcond
  · have hcfg : (ModelManager_init env cfg).model_config = cfg :=
      loadList_config env cfg _
    rw [get_available_models, hcfg]
    rfl

/-- Closed instance of claim_C8_load_isolation: a three-model catalog
whose middle artifact is missing loads the other two and marks only the
middle one unavailable. -/
theorem claim_C8_load_isolation_witness :
    is_model_available
      (ModelManager_init
        ⟨fun s => !(s == "p2"), fun s => if s == "p2" then none else some 1⟩
        [("m1", ⟨"Model 1", "p1", "", ["a"], (224, 224)⟩),
         ("m2", ⟨"Model 2", "p2", "", ["a"], (224, 224)⟩),
         ("m3", ⟨"Model 3", "p3", "", ["a"], (224, 224)⟩)]) "m1" = true ∧
    is_model_available
      (ModelManager_init
        ⟨fun s => !(s == "p2"), fun s => if s == "p2" then none else some 1⟩
        [("m1", ⟨"Model 1", "p1", "", ["a"], (224, 224)⟩),
         ("m2", ⟨"Model 2", "p2", "", ["a"], (224, 224)⟩),
         ("m3", ⟨"Model 3", "p3", "", ["a"], (224, 224)⟩)]) "m2" = false ∧
    is_model_available
      (ModelManager_init
        ⟨fun s => !(s == "p2"), fun s => if s == "p2" then none else some 1⟩
        [("m1", ⟨"Model 1", "p1", "", ["a"], (224, 224)⟩),
         ("m2", ⟨"Model 2", "p2", "", ["a"], (224, 224)⟩),
         ("m3", ⟨"Model 3", "p3", "", ["a"], (224, 224)⟩)]) "m3" = true := by
  have h := (claim_C8_load_isolation
    ⟨fun s => !(s == "p2"), fun s => if s == "p2" then none else some 1⟩
    [("m1", ⟨"Model 1", "p1", "", ["a"], (224, 224)⟩),
     ("m2", ⟨"Model 2", "p2", "", ["a"], (224, 224)⟩),
     ("m3", ⟨"Model 3", "p3", "", ["a"], (224, 224)⟩)] (by decide)).1
  refine ⟨(h "m1" ⟨"Model 1", "p1", "", ["a"], (224, 224)⟩ (by decide)).mpr (by decide), ?_,
    (h "m3" ⟨"Model 3", "p3", "", ["a"], (224, 224)⟩ (by decide)).mpr (by decide)⟩
  have h2 := h "m2" ⟨"Model 2", "p2", "", ["a"], (224, 224)⟩ (by decide)
  cases hb : is_model_available
      (ModelManager_init
        ⟨fun s => !(s == "p2"), fun s => if s == "p2" then none else some 1⟩
        [("m1", ⟨"Model 1", "p1", "", ["a"], (224, 224)⟩),
         ("m2", ⟨"Model 2", "p2", "", ["a"], (224, 224)⟩),
         ("m3", ⟨"Model 3", "p3", "", ["a"], (224, 224)⟩)]) "m2" with
  | false => rfl
  | true =>
    have := h2.mp hb
    simp at this

/-- C9 counterexample: reload_model is not atomic.  On a registry whose
model m is loaded with handle 0, in an environment whose reload would
succeed with handle 1, the reload is the composition of the eviction
with the subsequent load, and in the intermediate evicted state a
concurrent get_model or is_model_available observes the entry absent,
which is neither the fully-old handle 0 nor the fully-new handle 1. -/
theorem claim_C9_reload_not_atomic :
    get_model loadedSt "m" = some 0 ∧
    reload_model okEnv loadedSt "m" = load_model okEnv (evict loadedSt "m") "m" ∧
    get_model (reload_model okEnv loadedSt "m").1 "m" = some 1 ∧
    get_model (evict loadedSt "m") "m" = none ∧
    is_model_available (evict loadedSt "m") "m" = false ∧
    ¬ (get_model (evict loadedSt "m") "m" = get_model loadedSt "m") ∧
    ¬ (get_model (evict loadedSt "m") "m" =
        get_model (reload_model okEnv loadedSt "m").1 "m") := by
  refine ⟨rfl, rfl, rfl, rfl, rfl, by decide, by decide⟩

/-- C9 amended: reload_model on a loaded model first passes through the
evicted state (it is definitionally the load applied to the evicted
state), and in that intermediate state a concurrent reader observes the
entry absent, so the replacement is not a single visible transition. -/
theorem claim_C9_reload_gap (env : LoadEnv) (st : RegistryState) (id : String)
    (h : (st.models id).isSome = true) :
    reload_model env st id = load_model env (evict st id) id ∧
    get_model (evict st id) id = none ∧
    is_model_available (evict st id) id = false := by
  refine ⟨?_, ?_, ?_⟩
  · simp [reload_model, h]
  · simp [get_model, evict]
  · simp [is_model_available, evict]

/-- Closed instance of claim_C9_reload_gap at the loaded one-model
registry. -/
theorem claim_C9_reload_gap_witness :
    reload_model okEnv loadedSt "m" = load_model okEnv (evict loadedSt "m") "m" ∧
    get_model (evict loadedSt "m") "m" = none ∧
    is_model_available (evict loadedSt "m") "m" = false :=
  claim_C9_reload_gap okEnv loadedSt "m" rfl

/-- C10: when reload_model is called on a loaded model and the load step
fails (missing or unparsable artifact), the old handle is discarded and
not restored: the call returns false, and afterwards the model is
unavailable and get_model returns none. -/
theorem claim_C10_reload_failure_drops (env : LoadEnv) (st : RegistryState)
    (id : String) (c : ModelDescr)
    (hloaded : (st.models id).isSome = true)
    (hc : configFind st.model_config id = some c)
    (hfail : env.pathExists c.model_path = false ∨ env.loadFile c.model_path = none) :
    (reload_model env st id).2 = false ∧
    is_model_available (reload_model env st id).1 id = false ∧
    get_model (reload_model env st id).1 id = none := by
  have hre : reload_model env st id = load_model env (evict st id) id := by
    simp [reload_model, hloaded]
  have hc' : configFind (evict st id).model_config id = some c := hc
  have hres : load_model env (evict st id) id = (evict st id, false) := by
    unfold load_model
    rw [hc']
    rcases hfail with hp | hl
    · simp [hp]
    · cases hpe : env.pathExists c.model_path with
      | false => simp [hpe]
      | true => simp [hpe, hl]
  rw [hre, hres]
  refine ⟨rfl, ?_, ?_⟩ <;> simp [is_model_available, get_model, evict]

/-- Closed instance of claim_C10_reload_failure_drops: reloading the
loaded model m after its artifact disappears drops it. -/
theorem claim_C10_reload_failure_drops_witness :
    (reload_model missingEnv loadedSt "m").2 = false ∧
    is_model_available (reload_model missingEnv loadedSt "m").1 "m" = false ∧
    get_model (reload_model missingEnv loadedSt "m").1 "m" = none :=
  claim_C10_reload_failure_drops missingEnv loadedSt "m"
    ⟨"Model", "p", "", ["x"], (224, 224)⟩ rfl rfl (Or.inl rfl)
